import Mathlib

/-!
Shallow embedding of the checkers rules engine in `checkers.py`
(classes `Checker`, `CheckerBoard`, `CheckerEngine`).

Python integers are modelled as `Int` where negative values can occur
(constructor inputs, the `move` parameter, the jump-offset arithmetic) and
as `Nat` where the source values are provably non-negative (decoded bit
fields, board dimensions).  Mutation is modelled by returning the updated
piece / board explicitly.
-/

/-- One checker piece: the class `Checker`.  Its single attribute `data`
packs king flag (bit 9), color (bit 8, 1 = Red), column (bits 4-7) and
row (bits 0-3). -/
structure Checker where
  data : Nat
deriving DecidableEq, Repr

/-- `Checker.__init__` (checkers.py lines 23-36): clamp `x_pos`/`y_pos`
into [0,15] and pack the four fields. -/
def Checker.init (king is_red : Bool) (x_pos y_pos : Int) : Checker :=
  let x_pos := if x_pos > 15 then 15 else x_pos
  let x_pos := if x_pos < 0 then 0 else x_pos
  let y_pos := if y_pos > 15 then 15 else y_pos
  let y_pos := if y_pos < 0 then 0 else y_pos
  ⟨((cond king 1 0) <<< 9) ||| ((cond is_red 1 0) <<< 8) |||
    (x_pos.toNat <<< 4) ||| y_pos.toNat⟩

/-- `Checker.is_king` (lines 38-42). -/
def Checker.is_king (c : Checker) : Bool :=
  ((c.data &&& 0b1000000000) >>> 9) == 1

/-- `Checker.get_color` (lines 44-48). -/
def Checker.get_color (c : Checker) : String :=
  if ((c.data &&& 0b0100000000) >>> 8) == 1 then "Red" else "Black"

/-- `Checker.get_x_pos` (lines 50-51): the column. -/
def Checker.get_x_pos (c : Checker) : Nat :=
  (c.data &&& 0b0011110000) >>> 4

/-- `Checker.get_y_pos` (lines 53-54): the row. -/
def Checker.get_y_pos (c : Checker) : Nat :=
  c.data &&& 0b0000001111

/-- The class `CheckerBoard`: dimensions plus the list `pieces`. -/
structure CheckerBoard where
  width : Nat
  height : Nat
  pieces : List Checker
deriving Repr

/-- `CheckerBoard.red_check` (lines 113-117): true on the squares that must
NOT receive a piece. -/
def CheckerBoard.red_check (_b : CheckerBoard) (row column : Nat) : Bool :=
  if (row + column) % 2 == 0 then false else true

/-- Standalone form of `red_check`, used by `generate_board` below. -/
def red_square (row column : Nat) : Bool :=
  if (row + column) % 2 == 0 then false else true

/-- The body of one `column` iteration of `generate_board`'s loops
(lines 96-103): first the top-half piece, then the bottom-half piece. -/
def gen_column (current_row bottom_row column : Nat) : List Checker :=
  (if red_square current_row column = false then
    [Checker.init false false (column : Int) (current_row : Int)] else []) ++
  (if red_square bottom_row column = false then
    [Checker.init false true (column : Int) (bottom_row : Int)] else [])

/-- `CheckerBoard.generate_board` (lines 85-105): the number of piece rows
per side, then the row-major generation loop. -/
def rows_to_generate (height : Nat) : Nat :=
  if height % 2 == 0 then (height - 1) / 2 else height / 2

/-- The full list of pieces produced by `generate_board` on a board of the
given (already clamped) dimensions, in append order. -/
def generate_board (width height : Nat) : List Checker :=
  (List.range (rows_to_generate height)).flatMap fun current_row =>
    (List.range width).flatMap fun column =>
      gen_column current_row (height - current_row - 1) column

/-- `CheckerBoard.__init__` (lines 62-82): clamp each dimension into
[3,16] and generate the starting pieces. -/
def CheckerBoard.create (width height : Int) : CheckerBoard :=
  let width := if width > 16 then 16 else width
  let width := if width < 3 then 3 else width
  let height := if height > 16 then 16 else height
  let height := if height < 3 then 3 else height
  ⟨width.toNat, height.toNat, generate_board width.toNat height.toNat⟩

/-- The class `CheckerEngine`: a board plus the (never consulted) turn
counter. -/
structure CheckerEngine where
  board : CheckerBoard
  turn : Nat
deriving Repr

/-- `CheckerEngine.__init__` (lines 149-154). -/
def CheckerEngine.create (width height : Int) : CheckerEngine :=
  ⟨CheckerBoard.create width height, 0⟩

/-- The tuple `(L, J, P)` returned by `movement_check`. -/
structure MoveResult where
  was_legal : Bool
  was_jump : Bool
  jumped_piece : Option Checker
deriving DecidableEq, Repr

/-- The capture-detection loop of `movement_check` (lines 246-263).
Returns `(false, _)` on the early `return` (same-color piece on a checked
offset) and `(true, jp)` when the loop runs to completion, where `jp` is
the last different-color piece found on a checked offset (the running
value of the `jumped_piece` variable).  The source checks the two offsets
with two consecutive `if`s; they are mutually exclusive because
`tx + 1 ≠ tx - 1`, so sequential `if`/`else if` is faithful. -/
def jump_scan (color : String) (tx ty : Int) :
    List Checker → Option Checker → Bool × Option Checker
  | [], jp => (true, jp)
  | p :: rest, jp =>
    if (p.get_x_pos : Int) = tx + 1 ∧ (p.get_y_pos : Int) = ty + 1 then
      if p.get_color = color then (false, jp)
      else jump_scan color tx ty rest (some p)
    else if (p.get_x_pos : Int) = tx - 1 ∧ (p.get_y_pos : Int) = ty - 1 then
      if p.get_color = color then (false, jp)
      else jump_scan color tx ty rest (some p)
    else jump_scan color tx ty rest jp

/-- The "King Logic" block of `movement_check` (lines 267-275): promote the
moving piece when it reaches the far row.  `ty` is the decoded target row. -/
def king_promote (height : Nat) (mp : Checker) (ty : Nat) : Checker :=
  if mp.get_color = "Red" then
    if ty = 0 then ⟨mp.data ||| 0b1000000000⟩ else mp
  else
    if (ty : Int) = (height : Int) - 1 then ⟨mp.data ||| 0b1000000000⟩ else mp

/-- The tail of `movement_check` from the "Jumping Logic" comment on
(lines 224-278): jump classification, the two jump-direction gates, the
capture scan, the "King Logic" promotion and the success return.
`pieces` is the board's piece list, `height` the board height, and
`tx`/`ty` the decoded target column/row. -/
def movement_check_jump (pieces : List Checker) (height : Nat)
    (moving_piece : Checker) (tx ty : Nat) : MoveResult × Checker :=
  if (moving_piece.get_x_pos : Int) > (tx : Int) + 1 ∨
      (moving_piece.get_x_pos : Int) < (tx : Int) - 1 then
    if moving_piece.get_y_pos ≥ ty ∧ moving_piece.is_king = false ∧
        moving_piece.get_color = "Black" then
      (⟨false, true, none⟩, moving_piece)
    else if moving_piece.get_y_pos ≤ ty ∧ moving_piece.is_king = false ∧
        moving_piece.get_color = "Red" then
      (⟨false, true, none⟩, moving_piece)
    else
      match jump_scan moving_piece.get_color (tx : Int) (ty : Int)
          pieces none with
      | (false, jp) => (⟨false, true, jp⟩, moving_piece)
      | (true, jp) =>
        (⟨true, true, jp⟩, king_promote height moving_piece ty)
  else (⟨true, false, none⟩, king_promote height moving_piece ty)

/-- `CheckerEngine.movement_check` (lines 166-278).  Returns the tuple
`(L, J, P)` together with the moving piece as left by the call (the
source mutates `moving_piece.data` for king promotion).  The "Basic
Movement Logic" gates appear here in source order; the jumping and king
logic is `movement_check_jump` above. -/
def CheckerEngine.movement_check (e : CheckerEngine) (moving_piece : Checker)
    (move : Int) : MoveResult × Checker :=
  if move < 0 ∨ move > 255 then (⟨false, false, none⟩, moving_piece)
  else if move.toNat >>> 4 ≥ e.board.width then
    (⟨false, false, none⟩, moving_piece)
  else if move.toNat &&& 0b00001111 ≥ e.board.height then
    (⟨false, false, none⟩, moving_piece)
  else if e.board.red_check (move.toNat &&& 0b00001111) (move.toNat >>> 4) then
    (⟨false, false, none⟩, moving_piece)
  else if moving_piece.get_x_pos = move.toNat >>> 4 ∨
      moving_piece.get_y_pos = move.toNat &&& 0b00001111 then
    (⟨false, false, none⟩, moving_piece)
  else if moving_piece.get_y_pos ≥ move.toNat &&& 0b00001111 ∧
      moving_piece.is_king = false ∧ moving_piece.get_color = "Black" then
    (⟨false, false, none⟩, moving_piece)
  else if moving_piece.get_y_pos ≤ move.toNat &&& 0b00001111 ∧
      moving_piece.is_king = false ∧ moving_piece.get_color = "Red" then
    (⟨false, false, none⟩, moving_piece)
  else if e.board.pieces.any (fun p => p.get_x_pos == move.toNat >>> 4 &&
      p.get_y_pos == move.toNat &&& 0b00001111) then
    (⟨false, false, none⟩, moving_piece)
  else movement_check_jump e.board.pieces e.board.height moving_piece
    (move.toNat >>> 4) (move.toNat &&& 0b00001111)

/-- `CheckerEngine.move` (lines 280-293).  Returns the `(L, J, P)` result,
the moving piece as left by the call, and the engine with the updated
piece list.  The source's `pieces.remove(jumped_piece)` removes the first
list entry equal to the jumped piece; `List.erase` on the piece data does
the same. -/
def CheckerEngine.move (e : CheckerEngine) (moving_piece : Checker)
    (move : Int) : MoveResult × Checker × CheckerEngine :=
  let r := e.movement_check moving_piece move
  let mp1 := r.2
  let mp2 : Checker :=
    if r.1.was_legal then ⟨((mp1.data >>> 8) <<< 8) ||| move.toNat⟩ else mp1
  let pieces2 : List Checker :=
    if r.1.was_jump then
      match r.1.jumped_piece with
      | some jp => e.board.pieces.erase jp
      | none => e.board.pieces
    else e.board.pieces
  (r.1, mp2, ⟨⟨e.board.width, e.board.height, pieces2⟩, e.turn⟩)

set_option maxHeartbeats 1000000
set_option maxRecDepth 8000

/-!
Helper lemmas: bit-level facts about the packed representation, decoding
facts about the constructor, and structural facts about `movement_check`.
-/

/-- A value below 256 has no bits at positions 8 and above. -/
lemma m_testBit_high {m j : Nat} (hm : m < 256) (hj : 8 ≤ j) :
    m.testBit j = false := by
  apply Nat.testBit_lt_two_pow
  calc m < 256 := hm
    _ = 2 ^ 8 := by norm_num
    _ ≤ 2 ^ j := Nat.pow_le_pow_right (by norm_num) hj

/-- The row field of `(q <<< 8) ||| m` is the row field of `m`. -/
lemma or_low_get_y (q m : Nat) :
    (q <<< 8 ||| m) &&& 0b0000001111 = m &&& 0b0000001111 := by
  apply Nat.eq_of_testBit_eq
  intro j
  simp only [Nat.testBit_and, Nat.testBit_or, Nat.testBit_shiftLeft]
  by_cases hj : j < 4
  · interval_cases j <;> simp
  · have h15 : (15 : Nat) = 2 ^ 4 - 1 := by norm_num
    have : Nat.testBit 15 j = false := by
      rw [h15, Nat.testBit_two_pow_sub_one]
      simp; omega
    simp [this]

/-- The column field of `(q <<< 8) ||| m` is the column field of `m`,
provided `m` fits in the low byte. -/
lemma or_low_get_x (q m : Nat) (hm : m < 256) :
    ((q <<< 8 ||| m) &&& 0b0011110000) >>> 4 = m >>> 4 := by
  apply Nat.eq_of_testBit_eq
  intro j
  simp only [Nat.testBit_shiftRight, Nat.testBit_and, Nat.testBit_or,
    Nat.testBit_shiftLeft]
  by_cases hj : j < 4
  · interval_cases j <;>
      simp [show Nat.testBit 240 4 = true by decide,
        show Nat.testBit 240 5 = true by decide,
        show Nat.testBit 240 6 = true by decide,
        show Nat.testBit 240 7 = true by decide]
  · have h240 : Nat.testBit 240 (4 + j) = false := by
      apply Nat.testBit_lt_two_pow
      calc (240:Nat) < 2 ^ 8 := by norm_num
        _ ≤ 2 ^ (4 + j) := Nat.pow_le_pow_right (by norm_num) (by omega)
    have hm' : m.testBit (4 + j) = false := m_testBit_high hm (by omega)
    simp [h240, hm']

/-- Bit 9 (the king flag) of `(q <<< 8) ||| m` ignores the low byte `m`. -/
lemma or_high_bit9 (q m : Nat) (hm : m < 256) :
    (q <<< 8 ||| m) &&& 0b1000000000 = (q <<< 8) &&& 0b1000000000 := by
  apply Nat.eq_of_testBit_eq
  intro j
  simp only [Nat.testBit_and, Nat.testBit_or]
  by_cases hj : j = 9
  · subst hj
    have : m.testBit 9 = false := m_testBit_high hm (by omega)
    simp [this]
  · have : Nat.testBit 512 j = false := by
      have h512 : (512 : Nat) = 2 ^ 9 := by norm_num
      rw [h512, Nat.testBit_two_pow]
      simp [Ne.symm hj]
    simp [this]

/-- Bit 8 (the color flag) of `(q <<< 8) ||| m` ignores the low byte `m`. -/
lemma or_high_bit8 (q m : Nat) (hm : m < 256) :
    (q <<< 8 ||| m) &&& 0b0100000000 = (q <<< 8) &&& 0b0100000000 := by
  apply Nat.eq_of_testBit_eq
  intro j
  simp only [Nat.testBit_and, Nat.testBit_or]
  by_cases hj : j = 8
  · subst hj
    have : m.testBit 8 = false := m_testBit_high hm (by omega)
    simp [this]
  · have : Nat.testBit 256 j = false := by
      have h256 : (256 : Nat) = 2 ^ 8 := by norm_num
      rw [h256, Nat.testBit_two_pow]
      simp [Ne.symm hj]
    simp [this]

/-- Bits 8 and above survive the round trip `(d >>> 8) <<< 8`. -/
lemma shiftRL_bit (d j : Nat) (hj : 8 ≤ j) :
    ((d >>> 8) <<< 8).testBit j = d.testBit j := by
  simp only [Nat.testBit_shiftLeft, Nat.testBit_shiftRight]
  have h1 : decide (j ≥ 8) = true := by simp [hj]
  rw [h1, Bool.true_and]
  congr 1
  omega

/-- The king bit of `(d >>> 8) <<< 8` is the king bit of `d`. -/
lemma shiftRL_and_512 (d : Nat) :
    ((d >>> 8) <<< 8) &&& 0b1000000000 = d &&& 0b1000000000 := by
  apply Nat.eq_of_testBit_eq
  intro j
  simp only [Nat.testBit_and]
  by_cases hj : 8 ≤ j
  · rw [shiftRL_bit d j hj]
  · have : Nat.testBit 512 j = false := by
      have h512 : (512 : Nat) = 2 ^ 9 := by norm_num
      rw [h512, Nat.testBit_two_pow]
      simp; omega
    simp [this]

/-- The color bit of `(d >>> 8) <<< 8` is the color bit of `d`. -/
lemma shiftRL_and_256 (d : Nat) :
    ((d >>> 8) <<< 8) &&& 0b0100000000 = d &&& 0b0100000000 := by
  apply Nat.eq_of_testBit_eq
  intro j
  simp only [Nat.testBit_and]
  by_cases hj : 8 ≤ j
  · rw [shiftRL_bit d j hj]
  · have : Nat.testBit 256 j = false := by
      have h256 : (256 : Nat) = 2 ^ 8 := by norm_num
      rw [h256, Nat.testBit_two_pow]
      simp; omega
    simp [this]

/-- Decoding a constructed piece recovers the four in-range fields. -/
lemma init_decode : ∀ (k c : Bool), ∀ (x : Nat), x < 16 → ∀ (y : Nat), y < 16 →
    (Checker.init k c x y).is_king = k ∧
    (Checker.init k c x y).get_color = (if c then "Red" else "Black") ∧
    (Checker.init k c x y).get_x_pos = x ∧
    (Checker.init k c x y).get_y_pos = y := by decide

/-- Position decoding for the raw packed word, fields in range. -/
lemma pack_decode : ∀ (k c : Bool), ∀ (xn : Nat), xn < 16 → ∀ (yn : Nat), yn < 16 →
    (Checker.mk (((cond k 1 0) <<< 9) ||| ((cond c 1 0) <<< 8) |||
      (xn <<< 4) ||| yn)).get_x_pos = xn ∧
    (Checker.mk (((cond k 1 0) <<< 9) ||| ((cond c 1 0) <<< 8) |||
      (xn <<< 4) ||| yn)).get_y_pos = yn := by decide

/-- The stored position of any constructed piece is the clamped input. -/
lemma init_get_positions (k c : Bool) (x y : Int) :
    (Checker.init k c x y).get_x_pos =
      (if x > 15 then (15:Int) else if x < 0 then 0 else x).toNat ∧
    (Checker.init k c x y).get_y_pos =
      (if y > 15 then (15:Int) else if y < 0 then 0 else y).toNat := by
  simp only [Checker.init]
  have hX : (if (if x > 15 then (15:Int) else x) < 0 then 0
      else if x > 15 then (15:Int) else x) =
      (if x > 15 then (15:Int) else if x < 0 then 0 else x) := by
    split_ifs <;> omega
  have hY : (if (if y > 15 then (15:Int) else y) < 0 then 0
      else if y > 15 then (15:Int) else y) =
      (if y > 15 then (15:Int) else if y < 0 then 0 else y) := by
    split_ifs <;> omega
  rw [hX, hY]
  have hXlt : (if x > 15 then (15:Int) else if x < 0 then 0 else x).toNat < 16 := by
    split_ifs <;> omega
  have hYlt : (if y > 15 then (15:Int) else if y < 0 then 0 else y).toNat < 16 := by
    split_ifs <;> omega
  exact pack_decode k c _ hXlt _ hYlt

/-- A square that is not red has even coordinate sum. -/
lemma red_square_false (r c : Nat) (h : red_square r c = false) :
    (r + c) % 2 = 0 := by
  unfold red_square at h
  split at h
  · next hc => simpa using hc
  · exact absurd h (by simp)

/-- On a clamped board, at most 8 rows per side are generated. -/
lemma rows_to_generate_le (H : Nat) (hH : H ≤ 16) : rows_to_generate H ≤ 8 := by
  unfold rows_to_generate
  split <;> omega

/-- Every piece produced by `generate_board` sits on a square with even
coordinate sum. -/
lemma generate_board_piece (W H : Nat) (hW : W ≤ 16) (hH : H ≤ 16) (p : Checker)
    (hp : p ∈ generate_board W H) : (p.get_y_pos + p.get_x_pos) % 2 = 0 := by
  unfold generate_board at hp
  rw [List.mem_flatMap] at hp
  obtain ⟨r, hr, hp⟩ := hp
  rw [List.mem_range] at hr
  rw [List.mem_flatMap] at hp
  obtain ⟨col, hcol, hp⟩ := hp
  rw [List.mem_range] at hcol
  have hrows := rows_to_generate_le H hH
  have hr16 : r < 16 := by omega
  have hcol16 : col < 16 := by omega
  have hb16 : H - r - 1 < 16 := by omega
  unfold gen_column at hp
  rw [List.mem_append] at hp
  rcases hp with hp | hp
  · by_cases hred : red_square r col = false
    · rw [if_pos hred] at hp
      simp only [List.mem_singleton] at hp
      subst hp
      have hd := init_decode false false col hcol16 r hr16
      rw [hd.2.2.1, hd.2.2.2]
      have := red_square_false r col hred
      omega
    · rw [if_neg hred] at hp
      simp at hp
  · by_cases hred : red_square (H - r - 1) col = false
    · rw [if_pos hred] at hp
      simp only [List.mem_singleton] at hp
      subst hp
      have hd := init_decode false true col hcol16 (H - r - 1) hb16
      rw [hd.2.2.1, hd.2.2.2]
      have := red_square_false (H - r - 1) col hred
      omega
    · rw [if_neg hred] at hp
      simp at hp

/-- If no piece sits on either checked offset, the capture scan never
fires and leaves the running candidate unchanged. -/
lemma jump_scan_no_candidates (color : String) (tx ty : Int)
    (pieces : List Checker) (jp : Option Checker)
    (h : ∀ p ∈ pieces,
      ¬((p.get_x_pos : Int) = tx + 1 ∧ (p.get_y_pos : Int) = ty + 1) ∧
      ¬((p.get_x_pos : Int) = tx - 1 ∧ (p.get_y_pos : Int) = ty - 1)) :
    jump_scan color tx ty pieces jp = (true, jp) := by
  induction pieces with
  | nil => rfl
  | cons p rest ih =>
    have hp := h p (List.mem_cons_self p rest)
    unfold jump_scan
    rw [if_neg hp.1, if_neg hp.2]
    exact ih (fun q hq => h q (List.mem_cons_of_mem p hq))

/-- When all eight basic-movement gates pass, `movement_check` is exactly
its jumping/king tail. -/
lemma movement_check_passes_gates (e : CheckerEngine) (mp : Checker) (mv : Int)
    (h0 : ¬(mv < 0 ∨ mv > 255))
    (h1 : ¬(mv.toNat >>> 4 ≥ e.board.width))
    (h2 : ¬(mv.toNat &&& 0b00001111 ≥ e.board.height))
    (h3 : e.board.red_check (mv.toNat &&& 0b00001111) (mv.toNat >>> 4) = false)
    (h4 : ¬(mp.get_x_pos = mv.toNat >>> 4 ∨
      mp.get_y_pos = mv.toNat &&& 0b00001111))
    (h5 : ¬(mp.get_y_pos ≥ mv.toNat &&& 0b00001111 ∧ mp.is_king = false ∧
      mp.get_color = "Black"))
    (h6 : ¬(mp.get_y_pos ≤ mv.toNat &&& 0b00001111 ∧ mp.is_king = false ∧
      mp.get_color = "Red"))
    (h7 : e.board.pieces.any (fun p => p.get_x_pos == mv.toNat >>> 4 &&
      p.get_y_pos == mv.toNat &&& 0b00001111) = false) :
    e.movement_check mp mv = movement_check_jump e.board.pieces e.board.height
      mp (mv.toNat >>> 4) (mv.toNat &&& 0b00001111) := by
  unfold CheckerEngine.movement_check
  rw [if_neg h0, if_neg h1, if_neg h2]
  rw [if_neg (by simp [h3] :
    ¬(e.board.red_check (mv.toNat &&& 0b00001111) (mv.toNat >>> 4) = true))]
  rw [if_neg h4, if_neg h5, if_neg h6]
  rw [if_neg (by simp [h7] :
    ¬(e.board.pieces.any (fun p => p.get_x_pos == mv.toNat >>> 4 &&
      p.get_y_pos == mv.toNat &&& 0b00001111) = true))]

/-- In the tail, the reported jump flag is exactly the column-distance
classification, whatever the capture scan finds. -/
lemma jump_tail_was_jump (pieces : List Checker) (height : Nat) (mp : Checker)
    (tx ty : Nat)
    (h5 : ¬(mp.get_y_pos ≥ ty ∧ mp.is_king = false ∧ mp.get_color = "Black"))
    (h6 : ¬(mp.get_y_pos ≤ ty ∧ mp.is_king = false ∧ mp.get_color = "Red")) :
    (movement_check_jump pieces height mp tx ty).1.was_jump =
      decide ((mp.get_x_pos : Int) > (tx : Int) + 1 ∨
        (mp.get_x_pos : Int) < (tx : Int) - 1) := by
  unfold movement_check_jump
  by_cases hc : (mp.get_x_pos : Int) > (tx : Int) + 1 ∨
      (mp.get_x_pos : Int) < (tx : Int) - 1
  · rw [if_pos hc, if_neg h5, if_neg h6]
    rcases hs : jump_scan mp.get_color (tx : Int) (ty : Int) pieces none
      with ⟨b, jp⟩
    cases b <;> simp [hc]
  · rw [if_neg hc]
    simp [hc]

/-- A classified jump over two empty offsets succeeds with no capture. -/
lemma jump_tail_no_candidates (pieces : List Checker) (height : Nat)
    (mp : Checker) (tx ty : Nat)
    (hjump : (mp.get_x_pos : Int) > (tx : Int) + 1 ∨
      (mp.get_x_pos : Int) < (tx : Int) - 1)
    (h5 : ¬(mp.get_y_pos ≥ ty ∧ mp.is_king = false ∧ mp.get_color = "Black"))
    (h6 : ¬(mp.get_y_pos ≤ ty ∧ mp.is_king = false ∧ mp.get_color = "Red"))
    (hcand : ∀ p ∈ pieces,
      ¬((p.get_x_pos : Int) = (tx : Int) + 1 ∧
        (p.get_y_pos : Int) = (ty : Int) + 1) ∧
      ¬((p.get_x_pos : Int) = (tx : Int) - 1 ∧
        (p.get_y_pos : Int) = (ty : Int) - 1)) :
    movement_check_jump pieces height mp tx ty =
      (⟨true, true, none⟩, king_promote height mp ty) := by
  unfold movement_check_jump
  rw [if_pos hjump, if_neg h5, if_neg h6,
    jump_scan_no_candidates mp.get_color (tx : Int) (ty : Int) pieces none hcand]

/-- If the tail reports no jump, it also reports no jumped piece. -/
lemma jump_tail_not_jump (pieces : List Checker) (height : Nat) (mp : Checker)
    (tx ty : Nat) :
    (movement_check_jump pieces height mp tx ty).1.was_jump = false →
    (movement_check_jump pieces height mp tx ty).1.jumped_piece = none := by
  rcases h : movement_check_jump pieces height mp tx ty with ⟨⟨l, j, p⟩, mp'⟩
  unfold movement_check_jump at h
  repeat' split at h
  all_goals simp_all

/-- A legal verdict is only reached for moves inside the byte range. -/
lemma legal_range (e : CheckerEngine) (mp : Checker) (mv : Int)
    (h : (e.movement_check mp mv).1.was_legal = true) : 0 ≤ mv ∧ mv ≤ 255 := by
  rcases hh : e.movement_check mp mv with ⟨⟨l, j, p⟩, mp'⟩
  rw [hh] at h
  simp at h
  unfold CheckerEngine.movement_check at hh
  split at hh
  · simp_all
  · next hcond => omega

/-- A backward (or sideways) move by a non-king Black piece never
validates: the direction gate rejects it and every earlier gate also
returns illegal. -/
lemma movement_check_black_backward (e : CheckerEngine) (mp : Checker)
    (mv : Int) (hk : mp.is_king = false) (hc : mp.get_color = "Black")
    (hr : mp.get_y_pos ≥ mv.toNat &&& 0b00001111) :
    (e.movement_check mp mv).1.was_legal = false := by
  rcases h : e.movement_check mp mv with ⟨⟨l, j, p⟩, mp'⟩
  unfold CheckerEngine.movement_check at h
  repeat' split at h
  all_goals simp_all

/-- The symmetric fact for a non-king Red piece. -/
lemma movement_check_red_backward (e : CheckerEngine) (mp : Checker)
    (mv : Int) (hk : mp.is_king = false) (hc : mp.get_color = "Red")
    (hr : mp.get_y_pos ≤ mv.toNat &&& 0b00001111) :
    (e.movement_check mp mv).1.was_legal = false := by
  rcases h : e.movement_check mp mv with ⟨⟨l, j, p⟩, mp'⟩
  unfold CheckerEngine.movement_check at h
  repeat' split at h
  all_goals simp_all

/-!
The claim theorems.
-/

/-- Claim C1, counterexample.  The claim says every `legal=false` return of
`movement_check` carries `isJump=false` and `jumpedPiece=none`.  Here a
Black piece at (5,1) attempts the jump-classified move to target (2,2)
(encoding 34) over its own Black piece at (3,3): the call returns
`legal=false` but `isJump=true`. -/
theorem C1_counterexample :
    ((⟨⟨8, 8, [Checker.init false false 5 1, Checker.init false false 3 3]⟩,
        0⟩ : CheckerEngine).movement_check
      (Checker.init false false 5 1) 34).1.was_legal = false ∧
    ((⟨⟨8, 8, [Checker.init false false 5 1, Checker.init false false 3 3]⟩,
        0⟩ : CheckerEngine).movement_check
      (Checker.init false false 5 1) 34).1.was_jump = true := by decide

/-- Claim C1, amended.  Whenever `movement_check` returns `legal=false`
together with `isJump=false`, the returned `jumpedPiece` is `none`; a
failure inside the jump gates instead reports `isJump=true` (and may even
carry a previously recorded opposite-color candidate). -/
theorem C1_amended_thm (e : CheckerEngine) (mp : Checker) (mv : Int) :
    (e.movement_check mp mv).1.was_legal = false →
    (e.movement_check mp mv).1.was_jump = false →
    (e.movement_check mp mv).1.jumped_piece = none := by
  rcases h : e.movement_check mp mv with ⟨⟨l, j, p⟩, mp'⟩
  intro hl hj
  simp only at hl hj ⊢
  unfold CheckerEngine.movement_check at h
  repeat' split at h
  all_goals try simp_all
  have := jump_tail_not_jump e.board.pieces e.board.height mp
    (mv.toNat >>> 4) (mv.toNat &&& 0b00001111)
  rw [h] at this
  simp_all

/-- Claim C1, witness: the amended theorem applied to an out-of-range
move parameter, a failure of the very first gate. -/
theorem C1_witness :
    ((⟨⟨8, 8, []⟩, 0⟩ : CheckerEngine).movement_check
      (Checker.init false false 5 1) 300).1.jumped_piece = none :=
  C1_amended_thm ⟨⟨8, 8, []⟩, 0⟩ (Checker.init false false 5 1) 300
    (by decide) (by decide)

/-- Claim C2, code bug, evaluated at the failing input.  A Black piece at
(4,3) attempts the jump-classified move to (6,4) (encoding 100).  The
board holds an opposite-color Red piece at (7,5) = (target column + 1,
target row + 1), scanned first, and a same-color Black piece at (5,3) =
(target column - 1, target row - 1).  `movement_check` correctly reports
the move illegal, yet `move` removes the Red piece at (7,5) from the
board: the piece count drops from 3 to 2. -/
theorem C2_code_bug :
    ((⟨⟨8, 8, [Checker.init false false 4 3, Checker.init false true 7 5,
        Checker.init false false 5 3]⟩, 0⟩ : CheckerEngine).move
      (Checker.init false false 4 3) 100).1.was_legal = false ∧
    ((⟨⟨8, 8, [Checker.init false false 4 3, Checker.init false true 7 5,
        Checker.init false false 5 3]⟩, 0⟩ : CheckerEngine)).board.pieces.length
      = 3 ∧
    ((⟨⟨8, 8, [Checker.init false false 4 3, Checker.init false true 7 5,
        Checker.init false false 5 3]⟩, 0⟩ : CheckerEngine).move
      (Checker.init false false 4 3) 100).2.2.board.pieces.length = 2 ∧
    ((⟨⟨8, 8, [Checker.init false false 4 3, Checker.init false true 7 5,
        Checker.init false false 5 3]⟩, 0⟩ : CheckerEngine).move
      (Checker.init false false 4 3) 100).2.2.board.pieces =
      [Checker.init false false 4 3, Checker.init false false 5 3] := by decide

/-- Claim C3, counterexample.  The claim says `isJump=true` exactly when
the column-distance test holds, for every piece and target.  For the
Black piece at (5,1) and target encoding 242 (column 15, well off an
8-wide board) the column test holds (5 < 15 - 1) yet the on-grid gate
fails first and the call reports `isJump=false`. -/
theorem C3_counterexample :
    ((Checker.init false false 5 1).get_x_pos : Int) <
      (((242 : Int).toNat >>> 4 : Nat) : Int) - 1 ∧
    ((⟨⟨8, 8, [Checker.init false false 5 1]⟩, 0⟩ :
        CheckerEngine).movement_check
      (Checker.init false false 5 1) 242).1.was_jump = false := by decide

/-- Claim C3, amended.  When the move reaches the jump-classification step
(all eight earlier gates pass), the returned `isJump` equals the
column-distance test `column > targetColumn+1 or column < targetColumn-1`;
the row plays no role.  If an earlier gate fails the call reports
`isJump=false` regardless of the column distance. -/
theorem C3_amended_thm (e : CheckerEngine) (mp : Checker) (mv : Int)
    (h0 : ¬(mv < 0 ∨ mv > 255))
    (h1 : ¬(mv.toNat >>> 4 ≥ e.board.width))
    (h2 : ¬(mv.toNat &&& 0b00001111 ≥ e.board.height))
    (h3 : e.board.red_check (mv.toNat &&& 0b00001111) (mv.toNat >>> 4) = false)
    (h4 : ¬(mp.get_x_pos = mv.toNat >>> 4 ∨
      mp.get_y_pos = mv.toNat &&& 0b00001111))
    (h5 : ¬(mp.get_y_pos ≥ mv.toNat &&& 0b00001111 ∧ mp.is_king = false ∧
      mp.get_color = "Black"))
    (h6 : ¬(mp.get_y_pos ≤ mv.toNat &&& 0b00001111 ∧ mp.is_king = false ∧
      mp.get_color = "Red"))
    (h7 : e.board.pieces.any (fun p => p.get_x_pos == mv.toNat >>> 4 &&
      p.get_y_pos == mv.toNat &&& 0b00001111) = false) :
    (e.movement_check mp mv).1.was_jump =
      decide ((mp.get_x_pos : Int) > ((mv.toNat >>> 4 : Nat) : Int) + 1 ∨
        (mp.get_x_pos : Int) < ((mv.toNat >>> 4 : Nat) : Int) - 1) := by
  rw [movement_check_passes_gates e mp mv h0 h1 h2 h3 h4 h5 h6 h7]
  exact jump_tail_was_jump e.board.pieces e.board.height mp
    (mv.toNat >>> 4) (mv.toNat &&& 0b00001111) h5 h6

/-- Claim C3, witness: the amended theorem applied to a Black piece at
(5,1) and target (2,2), a jump-classified move through open gates. -/
theorem C3_witness :
    ((⟨⟨8, 8, [Checker.init false false 5 1]⟩, 0⟩ :
        CheckerEngine).movement_check
      (Checker.init false false 5 1) 34).1.was_jump =
      decide (((Checker.init false false 5 1).get_x_pos : Int) >
          ((((34 : Int).toNat >>> 4 : Nat)) : Int) + 1 ∨
        ((Checker.init false false 5 1).get_x_pos : Int) <
          ((((34 : Int).toNat >>> 4 : Nat)) : Int) - 1) :=
  C3_amended_thm ⟨⟨8, 8, [Checker.init false false 5 1]⟩, 0⟩
    (Checker.init false false 5 1) 34 (by decide) (by decide) (by decide)
    (by decide) (by decide) (by decide) (by decide) (by decide)

/-- Claim C4.  For every board, piece and target: a non-king Black piece
whose row is at or past the target row is rejected, a non-king Red piece
whose row is at or before the target row is rejected, and kings are
exempt: a Black king at (3,3) legally moves back to (2,2) and a Red king
at (3,3) legally moves back to (4,4). -/
theorem C4_thm :
    (∀ (e : CheckerEngine) (mp : Checker) (mv : Int),
      mp.is_king = false → mp.get_color = "Black" →
      mp.get_y_pos ≥ mv.toNat &&& 0b00001111 →
      (e.movement_check mp mv).1.was_legal = false) ∧
    (∀ (e : CheckerEngine) (mp : Checker) (mv : Int),
      mp.is_king = false → mp.get_color = "Red" →
      mp.get_y_pos ≤ mv.toNat &&& 0b00001111 →
      (e.movement_check mp mv).1.was_legal = false) ∧
    ((Checker.init true false 3 3).get_y_pos ≥ (34 : Int).toNat &&& 0b00001111 ∧
      ((⟨⟨8, 8, [Checker.init true false 3 3]⟩, 0⟩ :
          CheckerEngine).movement_check
        (Checker.init true false 3 3) 34).1.was_legal = true) ∧
    ((Checker.init true true 3 3).get_y_pos ≤ (68 : Int).toNat &&& 0b00001111 ∧
      ((⟨⟨8, 8, [Checker.init true true 3 3]⟩, 0⟩ :
          CheckerEngine).movement_check
        (Checker.init true true 3 3) 68).1.was_legal = true) :=
  ⟨movement_check_black_backward, movement_check_red_backward,
    by decide, by decide⟩

/-- Claim C4, witness: the two universal parts applied to a non-king Black
piece at (3,3) aiming at row 2 and a non-king Red piece at (3,3) aiming
at row 4. -/
theorem C4_witness :
    ((⟨⟨8, 8, []⟩, 0⟩ : CheckerEngine).movement_check
      (Checker.init false false 3 3) 34).1.was_legal = false ∧
    ((⟨⟨8, 8, []⟩, 0⟩ : CheckerEngine).movement_check
      (Checker.init false true 3 3) 68).1.was_legal = false :=
  ⟨C4_thm.1 ⟨⟨8, 8, []⟩, 0⟩ (Checker.init false false 3 3) 34
      (by decide) (by decide) (by decide),
    C4_thm.2.1 ⟨⟨8, 8, []⟩, 0⟩ (Checker.init false true 3 3) 68
      (by decide) (by decide) (by decide)⟩

/-- Claim C5, counterexample.  The claim says every generated piece sits on
a square with `(row + column)` odd; on the freshly generated 8x8 board
this fails (the very first generated piece sits at (0,0)). -/
theorem C5_counterexample :
    ((CheckerBoard.create 8 8).pieces.all
      (fun p => (p.get_y_pos + p.get_x_pos) % 2 == 1)) = false := by decide

/-- Claim C5, amended.  For every (clamped) width and height, every piece
placed by board generation sits on a square whose coordinates satisfy
`(row + column) % 2 = 0` — the playable-square parity, matching
`red_check`, not the odd parity stated in the claim. -/
theorem C5_amended_thm (w h : Int) (p : Checker)
    (hp : p ∈ (CheckerBoard.create w h).pieces) :
    (p.get_y_pos + p.get_x_pos) % 2 = 0 := by
  simp only [CheckerBoard.create] at hp
  refine generate_board_piece _ _ ?_ ?_ p hp
  · split_ifs <;> omega
  · split_ifs <;> omega

/-- Claim C5, witness: the amended theorem applied to the piece at (0,0)
of the freshly generated 8x8 board. -/
theorem C5_witness :
    ((Checker.init false false 0 0).get_y_pos +
      (Checker.init false false 0 0).get_x_pos) % 2 = 0 :=
  C5_amended_thm 8 8 (Checker.init false false 0 0) (by decide)

/-- Claim C6.  Generating the standard 8x8 board yields exactly 12 Black
and 12 Red pieces, every piece sits on a playable square
(`(row + column) % 2 = 0`), and no piece sits on row 3 or row 4. -/
theorem C6_thm :
    ((CheckerBoard.create 8 8).pieces.filter
      (fun p => p.get_color == "Black")).length = 12 ∧
    ((CheckerBoard.create 8 8).pieces.filter
      (fun p => p.get_color == "Red")).length = 12 ∧
    ((CheckerBoard.create 8 8).pieces.all
      (fun p => ((p.get_y_pos + p.get_x_pos) % 2 == 0) &&
        (p.get_y_pos != 3) && (p.get_y_pos != 4))) = true := by decide

/-- Claim C7.  For every piece code `d` producible by the class (the
10-bit invariant `d < 1024` maintained by construction, promotion and
movement), decoding the four fields through the accessors and re-packing
them through the constructor reproduces exactly `d`. -/
theorem C7_thm : ∀ (d : Nat), d < 1024 →
    (Checker.init (Checker.mk d).is_king ((Checker.mk d).get_color == "Red")
      ((Checker.mk d).get_x_pos : Int) ((Checker.mk d).get_y_pos : Int)).data =
      d := by decide

/-- Claim C7, witness: the round trip at the concrete code 666
(king, Red, column 9, row 10). -/
theorem C7_witness :
    (Checker.init (Checker.mk 666).is_king
      ((Checker.mk 666).get_color == "Red")
      ((Checker.mk 666).get_x_pos : Int)
      ((Checker.mk 666).get_y_pos : Int)).data = 666 :=
  C7_thm 666 (by decide)

/-- Claim C8.  Whenever `move` executes a legal move, the moved piece
carries the target column and row, and its king flag and color equal
those of the piece as `movement_check` left it (so any promotion just
applied is preserved, and the color is untouched). -/
theorem C8_thm (e : CheckerEngine) (mp : Checker) (mv : Int)
    (h : (e.move mp mv).1.was_legal = true) :
    (e.move mp mv).2.1.get_x_pos = mv.toNat >>> 4 ∧
    (e.move mp mv).2.1.get_y_pos = mv.toNat &&& 0b00001111 ∧
    (e.move mp mv).2.1.is_king = (e.movement_check mp mv).2.is_king ∧
    (e.move mp mv).2.1.get_color = (e.movement_check mp mv).2.get_color := by
  have hl : (e.movement_check mp mv).1.was_legal = true := h
  obtain ⟨hm0, hm255⟩ := legal_range e mp mv hl
  have hm : mv.toNat < 256 := by omega
  have hmoved : (e.move mp mv).2.1 =
      Checker.mk ((((e.movement_check mp mv).2.data >>> 8) <<< 8) |||
        mv.toNat) := by
    unfold CheckerEngine.move
    simp only [hl, if_true]
  rw [hmoved]
  refine ⟨?_, ?_, ?_, ?_⟩
  · exact or_low_get_x _ _ hm
  · exact or_low_get_y _ _
  · unfold Checker.is_king
    rw [or_high_bit9 _ _ hm, shiftRL_and_512]
  · unfold Checker.get_color
    rw [or_high_bit8 _ _ hm, shiftRL_and_256]

/-- Claim C8, witness: the theorem applied to a Black piece at (6,6)
legally moving to (7,7) (encoding 119), which also promotes it. -/
theorem C8_witness :
    ((⟨⟨8, 8, [Checker.init false false 6 6]⟩, 0⟩ : CheckerEngine).move
      (Checker.init false false 6 6) 119).2.1.get_x_pos =
        (119 : Int).toNat >>> 4 ∧
    ((⟨⟨8, 8, [Checker.init false false 6 6]⟩, 0⟩ : CheckerEngine).move
      (Checker.init false false 6 6) 119).2.1.get_y_pos =
        (119 : Int).toNat &&& 0b00001111 ∧
    ((⟨⟨8, 8, [Checker.init false false 6 6]⟩, 0⟩ : CheckerEngine).move
      (Checker.init false false 6 6) 119).2.1.is_king =
      ((⟨⟨8, 8, [Checker.init false false 6 6]⟩, 0⟩ :
        CheckerEngine).movement_check
        (Checker.init false false 6 6) 119).2.is_king ∧
    ((⟨⟨8, 8, [Checker.init false false 6 6]⟩, 0⟩ : CheckerEngine).move
      (Checker.init false false 6 6) 119).2.1.get_color =
      ((⟨⟨8, 8, [Checker.init false false 6 6]⟩, 0⟩ :
        CheckerEngine).movement_check
        (Checker.init false false 6 6) 119).2.get_color :=
  C8_thm ⟨⟨8, 8, [Checker.init false false 6 6]⟩, 0⟩
    (Checker.init false false 6 6) 119 (by decide)

/-- Claim C9.  Constructing a piece with a column or row outside [0,15]
clamps the stored field to the nearest bound; the constructor is a total
function, so construction never fails. -/
theorem C9_thm (k c : Bool) (x y : Int) :
    (x > 15 → (Checker.init k c x y).get_x_pos = 15) ∧
    (x < 0 → (Checker.init k c x y).get_x_pos = 0) ∧
    (y > 15 → (Checker.init k c x y).get_y_pos = 15) ∧
    (y < 0 → (Checker.init k c x y).get_y_pos = 0) := by
  obtain ⟨hx, hy⟩ := init_get_positions k c x y
  refine ⟨fun h => ?_, fun h => ?_, fun h => ?_, fun h => ?_⟩
  · rw [hx, if_pos h]; rfl
  · rw [hx, if_neg (by omega), if_pos h]; rfl
  · rw [hy, if_pos h]; rfl
  · rw [hy, if_neg (by omega), if_pos h]; rfl

/-- Claim C9, witness: the theorem applied at column 20 and row -3, which
clamp to 15 and 0. -/
theorem C9_witness :
    (Checker.init false false 20 (-3)).get_x_pos = 15 ∧
    (Checker.init false false 20 (-3)).get_y_pos = 0 :=
  ⟨(C9_thm false false 20 (-3)).1 (by norm_num),
   (C9_thm false false 20 (-3)).2.2.2 (by norm_num)⟩

/-- Claim C10.  A jump-classified move that passes all gates and has no
piece of either color on the two checked offsets validates as
`(legal=true, isJump=true, jumpedPiece=none)`: the engine never demands
an intervening piece, so a capture-free jump over empty squares is
accepted. -/
theorem C10_thm (e : CheckerEngine) (mp : Checker) (mv : Int)
    (h0 : ¬(mv < 0 ∨ mv > 255))
    (h1 : ¬(mv.toNat >>> 4 ≥ e.board.width))
    (h2 : ¬(mv.toNat &&& 0b00001111 ≥ e.board.height))
    (h3 : e.board.red_check (mv.toNat &&& 0b00001111) (mv.toNat >>> 4) = false)
    (h4 : ¬(mp.get_x_pos = mv.toNat >>> 4 ∨
      mp.get_y_pos = mv.toNat &&& 0b00001111))
    (h5 : ¬(mp.get_y_pos ≥ mv.toNat &&& 0b00001111 ∧ mp.is_king = false ∧
      mp.get_color = "Black"))
    (h6 : ¬(mp.get_y_pos ≤ mv.toNat &&& 0b00001111 ∧ mp.is_king = false ∧
      mp.get_color = "Red"))
    (h7 : e.board.pieces.any (fun p => p.get_x_pos == mv.toNat >>> 4 &&
      p.get_y_pos == mv.toNat &&& 0b00001111) = false)
    (hjump : (mp.get_x_pos : Int) > ((mv.toNat >>> 4 : Nat) : Int) + 1 ∨
      (mp.get_x_pos : Int) < ((mv.toNat >>> 4 : Nat) : Int) - 1)
    (hcand : ∀ p ∈ e.board.pieces,
      ¬((p.get_x_pos : Int) = ((mv.toNat >>> 4 : Nat) : Int) + 1 ∧
        (p.get_y_pos : Int) = ((mv.toNat &&& 0b00001111 : Nat) : Int) + 1) ∧
      ¬((p.get_x_pos : Int) = ((mv.toNat >>> 4 : Nat) : Int) - 1 ∧
        (p.get_y_pos : Int) = ((mv.toNat &&& 0b00001111 : Nat) : Int) - 1)) :
    (e.movement_check mp mv).1 = ⟨true, true, none⟩ := by
  rw [movement_check_passes_gates e mp mv h0 h1 h2 h3 h4 h5 h6 h7,
    jump_tail_no_candidates e.board.pieces e.board.height mp
      (mv.toNat >>> 4) (mv.toNat &&& 0b00001111) hjump h5 h6 hcand]

/-- Claim C10, witness: a Black piece at (5,1) jumping to the empty target
(2,2) over two empty offsets (3,3) and (1,1) is accepted with no
capture. -/
theorem C10_witness :
    ((⟨⟨8, 8, [Checker.init false false 5 1]⟩, 0⟩ :
        CheckerEngine).movement_check
      (Checker.init false false 5 1) 34).1 = ⟨true, true, none⟩ :=
  C10_thm ⟨⟨8, 8, [Checker.init false false 5 1]⟩, 0⟩
    (Checker.init false false 5 1) 34 (by decide) (by decide) (by decide)
    (by decide) (by decide) (by decide) (by decide) (by decide) (by decide)
    (by decide)
